import Mathlib

set_option maxHeartbeats 1000000

/-! Verification development for the realmd enrollment orchestration engine
    (src/service/realm-kerberos.c).  The DBus method handlers are embedded
    shallowly: each handler is a function from its inputs plus an environment
    of external outcomes (lock availability, back-end results, cancellation)
    to the list of observable events it produces, in order. -/

namespace Realmd

/-- The four credential kinds of RealmCredentialType (REALM_CREDENTIAL_AUTOMATIC,
    REALM_CREDENTIAL_CCACHE, REALM_CREDENTIAL_SECRET, REALM_CREDENTIAL_PASSWORD). -/
inductive CredType
  | automatic
  | ccache
  | secret
  | password
  deriving DecidableEq

/-- All credential types, for enumerating messages. -/
def allCredTypes : List CredType :=
  [CredType.automatic, CredType.ccache, CredType.secret, CredType.password]

/-- A parsed credential (RealmCredential), discriminated by type. -/
inductive Cred
  | automatic
  | ccache (path : String)
  | secret (bytes : List Nat)
  | password (name : String) (pw : String)
  deriving DecidableEq

/-- The type tag of a parsed credential (the cred->type field). -/
def Cred.type : Cred → CredType
  | Cred.automatic => CredType.automatic
  | Cred.ccache _ => CredType.ccache
  | Cred.secret _ => CredType.secret
  | Cred.password _ _ => CredType.password

/-- Error codes of the REALM_ERROR domain used in realm-kerberos.c. -/
inductive RealmErrorCode
  | failed
  | busy
  | cancelled
  | internalErr
  | authFailed
  | notConfigured
  deriving DecidableEq

/-- Error codes of the G_DBUS_ERROR domain used in realm-kerberos.c. -/
inductive DBusErrorCode
  | notSupported
  | invalidArgs
  deriving DecidableEq

/-- A GError, discriminated by the domains that realm-kerberos.c inspects:
    REALM_ERROR, G_DBUS_ERROR, the G_IO_ERROR/G_IO_ERROR_CANCELLED pair,
    REALM_KRB5_ERROR (with the integer com_err code), G_FILE_ERROR, and
    anything else. -/
inductive GError
  | realm (code : RealmErrorCode) (msg : String)
  | dbus (code : DBusErrorCode) (msg : String)
  | ioCancelled
  | krb5 (code : Int) (msg : String)
  | fileError (msg : String)
  | otherError (msg : String)
  deriving DecidableEq

/-- The message carried by a GError. -/
def GError.message : GError → String
  | GError.realm _ m => m
  | GError.dbus _ m => m
  | GError.ioCancelled => "Operation was cancelled"
  | GError.krb5 _ m => m
  | GError.fileError m => m
  | GError.otherError m => m

/-- One of the four mutually exclusive login policies plus not-set
    (RealmKerberosLoginPolicy). -/
inductive LoginPolicy
  | notSet
  | allowAny
  | allowRealm
  | allowPermitted
  | denyAny
  deriving DecidableEq

/-- Observable events a handler produces, in order: diagnostics, the single
    DBus reply, daemon lock acquisition and release, back-end dispatch, and
    the name-service-cache-flush command. -/
inductive Event
  | diagInfo (msg : String)
  | diagError (err : Option GError) (label : Option String)
  | replyOk
  | replyErr (e : GError)
  | lockAcquire
  | unlock
  | dispatchJoin (assumePackages : Bool)
  | dispatchLeave
  | dispatchLogins (policy : LoginPolicy)
  | flushCaches
  deriving DecidableEq

/-- Whether an event is a DBus method reply (success or error). -/
def Event.isReply : Event → Bool
  | Event.replyOk => true
  | Event.replyErr _ => true
  | _ => false

/-- Number of unlock events in a trace. -/
def countUnlock : List Event → Nat
  | [] => 0
  | Event.unlock :: r => countUnlock r + 1
  | _ :: r => countUnlock r

/-- Whether a trace contains a lock acquisition. -/
def hasLock : List Event → Bool
  | [] => false
  | Event.lockAcquire :: _ => true
  | _ :: r => hasLock r

/-- The per-back-end membership capability record
    (RealmKerberosMembershipIface): join/leave async entry points and finish
    functions (modelled as presence flags) plus the two zero-terminated
    supported-credential arrays (none models a NULL array pointer). -/
structure MembershipIface where
  join_async : Bool
  leave_async : Bool
  join_finish : Bool
  leave_finish : Bool
  join_creds_supported : Option (List CredType)
  leave_creds_supported : Option (List CredType)
  deriving DecidableEq

/-- The supported-credential list selected by direction:
    `join ? iface->join_creds_supported : iface->leave_creds_supported`. -/
def credsSupportedFor (iface : MembershipIface) (join : Bool) : Option (List CredType) :=
  if join then iface.join_creds_supported else iface.leave_creds_supported

/-- The class record for the login-policy path (RealmKerberosClass):
    logins_async / logins_finish entry points modelled as presence flags. -/
structure KerberosClass where
  logins_async : Bool
  logins_finish : Bool
  deriving DecidableEq

/-- The credential wire payload: a string, a pair of strings, or bytes
    (the contents of the GVariant in the (ss@v) credential tuple). -/
inductive CredPayload
  | str (s : String)
  | pair (a b : String)
  | bytes (b : List Nat)
  deriving DecidableEq

/-- The three-part credential wire value (kind, owner, payload). -/
structure CredWire where
  kind : String
  owner : String
  payload : CredPayload
  deriving DecidableEq

/-- Modelled from the spec: `realm_credential_parse` lives in
    realm-credential.c, which is not under src/.  Spec 4.1 and 6: the parser
    decodes a structured (kind, owner, payload) value with
    kind in {automatic, ccache, secret, password}; password carries two
    strings (name, secret), secret carries opaque bytes, ccache carries a
    file path string; an unknown kind or malformed payload fails with
    InvalidArgument. -/
def realm_credential_parse (w : CredWire) : Except GError Cred :=
  match w.kind with
  | "automatic" => Except.ok Cred.automatic
  | "ccache" =>
    match w.payload with
    | CredPayload.str path => Except.ok (Cred.ccache path)
    | _ => Except.error (GError.dbus DBusErrorCode.invalidArgs "Invalid credential cache")
  | "secret" =>
    match w.payload with
    | CredPayload.bytes b => Except.ok (Cred.secret b)
    | _ => Except.error (GError.dbus DBusErrorCode.invalidArgs "Invalid secret")
  | "password" =>
    match w.payload with
    | CredPayload.pair n p => Except.ok (Cred.password n p)
    | _ => Except.error (GError.dbus DBusErrorCode.invalidArgs "Invalid password credential")
  | _ => Except.error (GError.dbus DBusErrorCode.invalidArgs "Invalid credential type")

/-- The message chosen by the switch in is_credential_supported for an
    unsupported credential type, by type and direction. -/
def credUnsupportedMessage (t : CredType) (join : Bool) : String :=
  match t with
  | CredType.automatic =>
    if join then "Joining this realm without credentials is not supported"
    else "Leaving this realm without credentials is not supported"
  | CredType.ccache =>
    if join then "Joining this realm using a credential cache is not supported"
    else "Leaving this realm using a credential cache is not supported"
  | CredType.secret =>
    if join then "Joining this realm using a secret is not supported"
    else "Unenrolling this realm using a secret is not supported"
  | CredType.password =>
    if join then "Enrolling this realm using a password is not supported"
    else "Unenrolling this realm using a password is not supported"

/-- The search loop of is_credential_supported: walk the zero-terminated
    supported array, stopping at the first entry whose type matches. -/
def findCredType : List CredType → CredType → Bool
  | [], _ => false
  | s :: rest, c => if c == s then true else findCredType rest c

/-- is_credential_supported: select the supported list by direction, search
    it; none means supported (the C function returns TRUE), some e means the
    C function set the G_DBUS_ERROR_NOT_SUPPORTED error e and returned FALSE. -/
def is_credential_supported (iface : MembershipIface) (credType : CredType) (join : Bool) : Option GError :=
  let supported := credsSupportedFor iface join
  let found :=
    match supported with
    | some l => findCredType l credType
    | none => false
  if found then none
  else some (GError.dbus DBusErrorCode.notSupported (credUnsupportedMessage credType join))

/-- enroll_method_reply: diagnostics plus the DBus reply chosen by the error
    domain, always followed by realm_invocation_unlock_daemon. -/
def enroll_method_reply (error : Option GError) : List Event :=
  match error with
  | none =>
    [Event.diagInfo "Successfully enrolled machine in realm", Event.replyOk, Event.unlock]
  | some e =>
    match e with
    | GError.realm c m =>
      [Event.diagError (some (GError.realm c m)) none,
       Event.replyErr (GError.realm c m), Event.unlock]
    | GError.dbus c m =>
      [Event.diagError (some (GError.dbus c m)) none,
       Event.replyErr (GError.dbus c m), Event.unlock]
    | GError.ioCancelled =>
      [Event.diagError (some GError.ioCancelled) (some "Cancelled"),
       Event.replyErr (GError.realm RealmErrorCode.cancelled "Operation was cancelled."),
       Event.unlock]
    | other =>
      [Event.diagError (some other) (some "Failed to enroll machine in realm"),
       Event.replyErr (GError.realm RealmErrorCode.failed
         "Failed to enroll machine in realm. See diagnostics."),
       Event.unlock]

/-- unenroll_method_reply: as enroll_method_reply, with the leave wording. -/
def unenroll_method_reply (error : Option GError) : List Event :=
  match error with
  | none =>
    [Event.diagInfo "Successfully unenrolled machine from realm", Event.replyOk, Event.unlock]
  | some e =>
    match e with
    | GError.realm c m =>
      [Event.diagError (some (GError.realm c m)) none,
       Event.replyErr (GError.realm c m), Event.unlock]
    | GError.dbus c m =>
      [Event.diagError (some (GError.dbus c m)) none,
       Event.replyErr (GError.dbus c m), Event.unlock]
    | GError.ioCancelled =>
      [Event.diagError (some GError.ioCancelled) (some "Cancelled"),
       Event.replyErr (GError.realm RealmErrorCode.cancelled "Operation was cancelled."),
       Event.unlock]
    | other =>
      [Event.diagError (some other) (some "Failed to unenroll machine from realm"),
       Event.replyErr (GError.realm RealmErrorCode.failed
         "Failed to unenroll machine from domain. See diagnostics."),
       Event.unlock]

/-- Environment of external outcomes for one operation: lock availability,
    whether the cancellation token fired, the back-end finish result (none
    is success), install mode, the flush command status and error, and the
    logins_finish outcome. -/
structure Env where
  lockFree : Bool
  cancelled : Bool
  installMode : Bool
  backendResult : Option GError
  flushStatus : Int
  flushError : Option GError
  loginsOk : Bool
  loginsError : Option GError
  deriving DecidableEq

/-- on_name_caches_flush: a nonzero status is only logged; the operation
    still replies success. -/
def on_name_caches_flush (status : Int) (err : Option GError) : List Event :=
  (if status ≠ 0 then [Event.diagError err (some "Flushing name caches failed")] else [])
    ++ enroll_method_reply none

/-- on_enroll_complete: if the cancellation token fired, the cancelled error
    replaces the back-end result (join_finish is not consulted); on success
    the name caches are flushed first unless in install mode. -/
def on_enroll_complete (iface : MembershipIface) (cancelled : Bool) (joinResult : Option GError)
    (installMode : Bool) (flushStatus : Int) (flushError : Option GError) : List Event :=
  if !iface.join_finish then []
  else
    match (if cancelled then some GError.ioCancelled else joinResult) with
    | some e => enroll_method_reply (some e)
    | none =>
      if !installMode then Event.flushCaches :: on_name_caches_flush flushStatus flushError
      else enroll_method_reply none

/-- on_unenroll_complete: cancellation likewise wins over leave_finish. -/
def on_unenroll_complete (iface : MembershipIface) (cancelled : Bool)
    (leaveResult : Option GError) : List Event :=
  if !iface.leave_finish then []
  else unenroll_method_reply (if cancelled then some GError.ioCancelled else leaveResult)

/-- join_or_leave: capability check, credential parse, credential support
    check, lock acquisition, then dispatch to the back-end and hand the
    result to the completion callback. -/
def join_or_leave (iface : MembershipIface) (credential : CredWire) (assumePackages : Bool)
    (join : Bool) (env : Env) : List Event :=
  if (join && !iface.join_async) || (!join && !iface.leave_async) then
    [Event.replyErr (GError.dbus DBusErrorCode.notSupported
      (if join then "Joining this realm is not supported"
       else "Leaving this realm is not supported"))]
  else
    match realm_credential_parse credential with
    | Except.error e => [Event.replyErr e]
    | Except.ok cred =>
      match is_credential_supported iface cred.type join with
      | some e => [Event.replyErr e]
      | none =>
        if !env.lockFree then
          [Event.replyErr (GError.realm RealmErrorCode.busy "Already running another action")]
        else
          Event.lockAcquire ::
            (if join then
              (if iface.join_finish then
                Event.dispatchJoin assumePackages ::
                  on_enroll_complete iface env.cancelled env.backendResult
                    env.installMode env.flushStatus env.flushError
               else [])
             else
              (if iface.leave_finish then
                Event.dispatchLeave ::
                  on_unenroll_complete iface env.cancelled env.backendResult
               else []))

/-- ASCII lowering, as g_ascii_tolower. -/
def asciiLower (c : Char) : Char :=
  if 65 ≤ c.toNat ∧ c.toNat ≤ 90 then Char.ofNat (c.toNat + 32) else c

/-- g_ascii_strcasecmp equality: the two strings compare equal ignoring
    ASCII case. -/
def g_ascii_strcasecmp_eq (a b : String) : Bool :=
  a.data.map asciiLower == b.data.map asciiLower

/-- g_ascii_strncasecmp equality on the first n characters. -/
def g_ascii_strncasecmp_eq (n : Nat) (a b : String) : Bool :=
  (a.data.take n).map asciiLower == (b.data.take n).map asciiLower

/-- The host-name check of handle_join: gethostname failed (none), or the
    name is localhost, or it starts with localhost. (first 10 characters). -/
def hostnameBad (hostname : Option String) : Bool :=
  match hostname with
  | none => true
  | some h => g_ascii_strcasecmp_eq h "localhost" || g_ascii_strncasecmp_eq 10 h "localhost."

/-- Free-form options of a Join/Leave/Deconfigure call, restricted to the
    two entries realm-kerberos.c looks up: computer-ou and assume-packages
    (assumePackages is true when the option is present and true). -/
structure Options where
  computerOu : Option String
  assumePackages : Bool
  deriving DecidableEq

/-- handle_join: host-name sanity first, then the assume-packages flag, then
    the common join_or_leave path with join = true. -/
def handle_join (iface : MembershipIface) (hostname : Option String) (credentials : CredWire)
    (options : Options) (env : Env) : List Event :=
  if hostnameBad hostname then
    [Event.replyErr (GError.realm RealmErrorCode.failed
      "This computer\x27s host name is not set correctly.")]
  else
    join_or_leave iface credentials options.assumePackages true env

/-- handle_leave: a computer-ou option is rejected before anything else, then
    the common join_or_leave path with join = false. -/
def handle_leave (iface : MembershipIface) (credentials : CredWire) (options : Options)
    (env : Env) : List Event :=
  match options.computerOu with
  | some _ =>
    [Event.replyErr (GError.dbus DBusErrorCode.invalidArgs
      "The computer-ou argument is not supported when leaving a domain.")]
  | none => join_or_leave iface credentials false false env

/-- The credential wire value handle_deconfigure synthesizes:
    ("automatic", "none", variant("")). -/
def deconfigureCredential : CredWire :=
  { kind := "automatic", owner := "none", payload := CredPayload.str "" }

/-- handle_deconfigure: synthesize the automatic/empty credential and take the
    leave path. -/
def handle_deconfigure (iface : MembershipIface) (_options : Options) (env : Env) : List Event :=
  join_or_leave iface deconfigureCredential false false env

/-- Worker for g_strsplit_set: split on any delimiter character, keeping
    empty tokens between adjacent delimiters (acc is the reversed current
    token). -/
def splitSetGo (delims : List Char) : List Char → List Char → List String
  | [], acc => [String.mk acc.reverse]
  | c :: cs, acc =>
    if delims.contains c then String.mk acc.reverse :: splitSetGo delims cs []
    else splitSetGo delims cs (c :: acc)

/-- g_strsplit_set with max_tokens = -1: tokens are the (possibly empty)
    maximal runs not containing a delimiter character.  GLib special-cases
    the empty input string, returning an empty vector rather than one empty
    token. -/
def g_strsplit_set (s : String) (delims : List Char) : List String :=
  if s = "" then [] else splitSetGo delims s.data []

/-- Modelled from the spec: the login-policy token constants
    (REALM_DBUS_LOGIN_POLICY_ANY and friends) live in the DBus constants
    header, whose login-policy part is not under src/; spec 4.6 gives the
    token set {any, realm, permitted, deny}. -/
def REALM_DBUS_LOGIN_POLICY_ANY : String := "any"

/-- Modelled from the spec: see REALM_DBUS_LOGIN_POLICY_ANY. -/
def REALM_DBUS_LOGIN_POLICY_REALM : String := "realm"

/-- Modelled from the spec: see REALM_DBUS_LOGIN_POLICY_ANY. -/
def REALM_DBUS_LOGIN_POLICY_PERMITTED : String := "permitted"

/-- Modelled from the spec: see REALM_DBUS_LOGIN_POLICY_ANY. -/
def REALM_DBUS_LOGIN_POLICY_DENY : String := "deny"

/-- Whether a token is one of the four recognized policy tokens. -/
def isPolicyToken (t : String) : Bool :=
  t == REALM_DBUS_LOGIN_POLICY_ANY || t == REALM_DBUS_LOGIN_POLICY_REALM ||
  t == REALM_DBUS_LOGIN_POLICY_PERMITTED || t == REALM_DBUS_LOGIN_POLICY_DENY

/-- The token scan loop of handle_change_login_policy: each recognized token
    overwrites the policy and increments policies_set; the first unrecognized
    token aborts the whole handler (none). -/
def policyLoop : List String → LoginPolicy → Nat → Option (LoginPolicy × Nat)
  | [], policy, count => some (policy, count)
  | t :: ts, _, count =>
    if t = REALM_DBUS_LOGIN_POLICY_ANY then policyLoop ts LoginPolicy.allowAny (count + 1)
    else if t = REALM_DBUS_LOGIN_POLICY_REALM then policyLoop ts LoginPolicy.allowRealm (count + 1)
    else if t = REALM_DBUS_LOGIN_POLICY_PERMITTED then
      policyLoop ts LoginPolicy.allowPermitted (count + 1)
    else if t = REALM_DBUS_LOGIN_POLICY_DENY then policyLoop ts LoginPolicy.denyAny (count + 1)
    else none

/-- on_logins_complete: success replies and unlocks; a REALM_ERROR or
    G_DBUS_ERROR failure is passed through; anything else becomes
    REALM_ERROR_INTERNAL; the unlock follows the reply in every case. -/
def on_logins_complete (klass : KerberosClass) (ok : Bool) (err : Option GError) : List Event :=
  if !klass.logins_finish then []
  else if ok then
    [Event.diagInfo "Successfully changed permitted logins for realm", Event.replyOk, Event.unlock]
  else
    match err with
    | some (GError.realm c m) =>
      [Event.diagError (some (GError.realm c m)) none,
       Event.replyErr (GError.realm c m), Event.unlock]
    | some (GError.dbus c m) =>
      [Event.diagError (some (GError.dbus c m)) none,
       Event.replyErr (GError.dbus c m), Event.unlock]
    | other =>
      [Event.diagError other (some "Failed to change permitted logins"),
       Event.replyErr (GError.realm RealmErrorCode.internalErr
         "Failed to change permitted logins. See diagnostics."),
       Event.unlock]

/-- handle_change_login_policy: split the policy string on comma, space and
    tab; scan the tokens; reject more than one recognized token; acquire the
    lock; dispatch to logins_async. -/
def handle_change_login_policy (klass : KerberosClass) (login_policy : String)
    (env : Env) : List Event :=
  match policyLoop (g_strsplit_set login_policy [',', ' ', '\t']) LoginPolicy.notSet 0 with
  | none =>
    [Event.replyErr (GError.dbus DBusErrorCode.invalidArgs
      "Invalid or unknown login_policy argument")]
  | some (policy, policies_set) =>
    if 1 < policies_set then
      [Event.replyErr (GError.dbus DBusErrorCode.invalidArgs
        "Conflicting flags in login_policy argument")]
    else if !env.lockFree then
      [Event.replyErr (GError.realm RealmErrorCode.busy "Already running another action")]
    else
      Event.lockAcquire ::
        (if klass.logins_async then
          Event.dispatchLogins policy :: on_logins_complete klass env.loginsOk env.loginsError
         else [])

/-- KRB5KDC error-code constants (com_err values from krb5.h, base
    -1765328384 plus the protocol error code). -/
def KRB5KDC_ERR_C_PRINCIPAL_UNKNOWN : Int := -1765328378

/-- KRB5KDC_ERR_POLICY (base + 12). -/
def KRB5KDC_ERR_POLICY : Int := -1765328372

/-- KRB5KDC_ERR_ETYPE_NOSUPP (base + 14). -/
def KRB5KDC_ERR_ETYPE_NOSUPP : Int := -1765328370

/-- KRB5KDC_ERR_CLIENT_REVOKED (base + 18). -/
def KRB5KDC_ERR_CLIENT_REVOKED : Int := -1765328366

/-- KRB5KDC_ERR_KEY_EXP (base + 23). -/
def KRB5KDC_ERR_KEY_EXP : Int := -1765328361

/-- KRB5KDC_ERR_PREAUTH_FAILED (base + 24). -/
def KRB5KDC_ERR_PREAUTH_FAILED : Int := -1765328360

/-- The six credential-problem codes listed in
    realm_kerberos_kinit_ccache_finish. -/
def authFailureCodes : List Int :=
  [KRB5KDC_ERR_PREAUTH_FAILED, KRB5KDC_ERR_C_PRINCIPAL_UNKNOWN, KRB5KDC_ERR_KEY_EXP,
   KRB5KDC_ERR_CLIENT_REVOKED, KRB5KDC_ERR_POLICY, KRB5KDC_ERR_ETYPE_NOSUPP]

/-- The disjunction of the six g_error_matches calls: the error belongs to
    the REALM_KRB5_ERROR domain with one of the credential-problem codes. -/
def krbAuthMatch : GError → Bool
  | GError.krb5 code _ => decide (code ∈ authFailureCodes)
  | _ => false

/-- Whether a surfaced error is REALM_ERROR_AUTH_FAILED. -/
def isAuthFailedErr : Option GError → Bool
  | some (GError.realm RealmErrorCode.authFailed _) => true
  | _ => false

/-- State of the GSimpleAsyncResult carrying a KinitClosure: the failed flag
    and pending error of the async result, plus the closure fields the finish
    function touches (ccache_file and the principal used in messages). -/
structure SimpleAsyncState where
  failed : Bool
  pendingError : Option GError
  ccache_file : Option String
  principal : String
  deriving DecidableEq

/-- Result of one realm_kerberos_kinit_ccache_finish call: the returned
    filename (NULL is none), the error stored through the out parameter, the
    async-result state afterwards, and diagnostics events emitted. -/
structure KinitResult where
  filename : Option String
  errorOut : Option GError
  state : SimpleAsyncState
  events : List Event
  deriving DecidableEq

/-- realm_kerberos_kinit_ccache_finish.  Propagating the error out of the
    GSimpleAsyncResult clears its stored error but leaves the failed flag
    set (GSimpleAsyncResult semantics); a credential-problem Kerberos code is
    mapped to REALM_ERROR_AUTH_FAILED, any other error is propagated
    unchanged; on success the ccache_file is handed over and cleared from
    the closure. -/
def realm_kerberos_kinit_ccache_finish (s : SimpleAsyncState) : KinitResult :=
  if s.failed then
    match s.pendingError with
    | some e =>
      if krbAuthMatch e then
        { filename := none,
          errorOut := some (GError.realm RealmErrorCode.authFailed
            ("Couldn\x27t authenticate as: " ++ s.principal ++ ": " ++ e.message)),
          state := { s with pendingError := none },
          events := [Event.diagError (some e) none] }
      else
        { filename := none, errorOut := some e,
          state := { s with pendingError := none },
          events := [Event.diagError (some e) none] }
    | none =>
      { filename := none, errorOut := none, state := s,
        events := [Event.diagError none none] }
  else
    { filename := s.ccache_file, errorOut := none,
      state := { s with ccache_file := none }, events := [] }

/-- External outcomes of one kinit worker run: each step of
    kinit_ccache_thread_func either succeeds (none / true) or fails with a
    code. -/
structure Krb5World where
  initContext : Option Int
  parseName : Option Int
  mkstempOk : Bool
  ccResolve : Option Int
  getInitCreds : Option Int
  deriving DecidableEq

/-- kinit_ccache_thread_func: the async-result state it leaves behind.  The
    ccache_file field is assigned before the temp file is created, so it is
    populated on every failure from the mkstemp step onward. -/
def kinit_ccache_thread_func (w : Krb5World) (principal tmpname : String) : SimpleAsyncState :=
  match w.initContext with
  | some code =>
    { failed := true, pendingError := some (GError.krb5 code "Couldn\x27t initialize kerberos"),
      ccache_file := none, principal := principal }
  | none =>
    match w.parseName with
    | some code =>
      { failed := true,
        pendingError := some (GError.krb5 code ("Couldn\x27t parse principal: " ++ principal)),
        ccache_file := none, principal := principal }
    | none =>
      if !w.mkstempOk then
        { failed := true,
          pendingError := some (GError.fileError "Couldn\x27t create credential cache file"),
          ccache_file := some tmpname, principal := principal }
      else
        match w.ccResolve with
        | some code =>
          { failed := true,
            pendingError := some (GError.krb5 code
              ("Couldn\x27t resolve credential cache: " ++ tmpname)),
            ccache_file := some tmpname, principal := principal }
        | none =>
          match w.getInitCreds with
          | some code =>
            { failed := true,
              pendingError := some (GError.krb5 code
                ("Couldn\x27t authenticate as: " ++ principal)),
              ccache_file := some tmpname, principal := principal }
          | none =>
            { failed := false, pendingError := none,
              ccache_file := some tmpname, principal := principal }

/-- Modelled from the spec: `realm_credential_ccache_delete_and_free` lives
    in realm-credential.c, not under src/.  Spec 4.1: release deletes the
    backing file the daemon created; a NULL path deletes nothing.  The
    returned list is the files deleted. -/
def realm_credential_ccache_delete_and_free : Option String → List String
  | some f => [f]
  | none => []

/-- kinit_closure_free: the files it deletes (the closure ccache_file, via
    delete-and-free). -/
def kinit_closure_free (s : SimpleAsyncState) : List String :=
  realm_credential_ccache_delete_and_free s.ccache_file

/-- Modelled from the spec: the membership-interface identifier string
    REALM_DBUS_KERBEROS_MEMBERSHIP_INTERFACE is declared in the DBus
    constants header, whose membership part is not under src/; only its
    non-emptiness matters to the configured state. -/
def REALM_DBUS_KERBEROS_MEMBERSHIP_INTERFACE : String :=
  "org.freedesktop.realmd.KerberosMembership"

/-- The realm-object state the configured accessors touch: the stored
    Configured DBus property (none models a NULL string). -/
structure RealmState where
  configured : Option String
  deriving DecidableEq

/-- realm_kerberos_set_configured: store the membership-interface identifier
    when true, the empty string when false. -/
def realm_kerberos_set_configured (s : RealmState) (configured : Bool) : RealmState :=
  let value := if configured then REALM_DBUS_KERBEROS_MEMBERSHIP_INTERFACE else ""
  { s with configured := some value }

/-- realm_kerberos_is_configured: non-null and non-empty. -/
def realm_kerberos_is_configured (s : RealmState) : Bool :=
  match s.configured with
  | none => false
  | some v => !(v == "")

/-- The lock discipline of claim C2 for one trace: the unlock count matches
    whether the lock was taken, and a taken lock is released immediately
    after the reply, as the final event. -/
def lockBalanced (tr : List Event) : Prop :=
  countUnlock tr = (if hasLock tr then 1 else 0) ∧
  (hasLock tr = true → ∃ pre e, tr = pre ++ [e, Event.unlock] ∧ e.isReply = true)

/-- A trace that ends with a reply followed by the unlock, contains exactly
    one unlock, and takes no lock itself (the completion-callback shape). -/
def endsWithReplyUnlock (tr : List Event) : Prop :=
  ∃ pre e, tr = pre ++ [e, Event.unlock] ∧ e.isReply = true ∧
    countUnlock tr = 1 ∧ hasLock tr = false

/-- A fully capable membership back-end fixture. -/
def ifaceFixture : MembershipIface :=
  { join_async := true, leave_async := true, join_finish := true, leave_finish := true,
    join_creds_supported := some [CredType.password, CredType.ccache],
    leave_creds_supported := some [CredType.automatic, CredType.password] }

/-- A fully capable class fixture for the login-policy path. -/
def classFixture : KerberosClass := { logins_async := true, logins_finish := true }

/-- A quiet environment: lock free, nothing cancelled, back-end succeeds. -/
def envFixture : Env :=
  { lockFree := true, cancelled := false, installMode := false, backendResult := none,
    flushStatus := 0, flushError := none, loginsOk := true, loginsError := none }

/-- Options fixture with no computer-ou. -/
def optionsFixture : Options := { computerOu := none, assumePackages := false }

/-- A password credential wire fixture. -/
def credWireFixture : CredWire :=
  { kind := "password", owner := "administrator", payload := CredPayload.pair "admin" "secret" }

/-- The search loop of is_credential_supported computes list membership. -/
theorem findCredType_eq_mem (l : List CredType) (c : CredType) :
    findCredType l c = decide (c ∈ l) := by
  induction l with
  | nil => rfl
  | cons s rest ih =>
    by_cases h : c = s
    · simp [findCredType, h]
    · simp [findCredType, h, ih]

/-- C1: the credential support check in join_or_leave succeeds iff the
    credential type occurs in the back-end's declared supported list for the
    requested direction (a NULL list supports nothing); on failure it
    produces a G_DBUS_ERROR_NOT_SUPPORTED error whose wording is pairwise
    distinct across the four credential types and the two directions. -/
theorem c1_credential_support :
    (∀ (iface : MembershipIface) (c : CredType) (j : Bool),
      is_credential_supported iface c j =
        if c ∈ (credsSupportedFor iface j).getD [] then none
        else some (GError.dbus DBusErrorCode.notSupported (credUnsupportedMessage c j))) ∧
    List.Pairwise (fun a b => a ≠ b)
      ((allCredTypes.map fun c => credUnsupportedMessage c true) ++
       (allCredTypes.map fun c => credUnsupportedMessage c false)) := by
  constructor
  · intro iface c j
    simp only [is_credential_supported]
    cases h : credsSupportedFor iface j with
    | none => simp
    | some l => simp [findCredType_eq_mem]
  · decide

/-- C10: the configured state round-trips through the boolean interface:
    set_configured true stores the (non-empty) membership-interface
    identifier and set_configured false stores the empty string, and
    is_configured tests exactly non-null-and-non-empty. -/
theorem c10_configured_roundtrip (s : RealmState) :
    realm_kerberos_is_configured (realm_kerberos_set_configured s true) = true ∧
    realm_kerberos_is_configured (realm_kerberos_set_configured s false) = false :=
  ⟨rfl, rfl⟩

/-- C4 counterexample: the string "any, deny" is rejected with the
    invalid-or-unknown wording, not the conflicting-flags wording the claim
    asserts, because g_strsplit_set keeps the empty token produced between
    the comma and the space and that empty token is unrecognized. -/
theorem c4_counterexample :
    handle_change_login_policy classFixture "any, deny" envFixture =
      [Event.replyErr (GError.dbus DBusErrorCode.invalidArgs
        "Invalid or unknown login_policy argument")] ∧
    "Invalid or unknown login_policy argument" ≠
      "Conflicting flags in login_policy argument" := by
  constructor
  · decide
  · decide

/-- One scan step on a recognized token: some policy is recorded and the
    count increments. -/
theorem policyLoop_cons_valid (t : String) (ts : List String) (pol : LoginPolicy)
    (count : Nat) (h : isPolicyToken t = true) :
    ∃ pol2, policyLoop (t :: ts) pol count = policyLoop ts pol2 (count + 1) := by
  simp only [isPolicyToken, Bool.or_eq_true, beq_iff_eq] at h
  rcases h with ((h | h) | h) | h <;> subst h
  · exact ⟨LoginPolicy.allowAny, rfl⟩
  · exact ⟨LoginPolicy.allowRealm, rfl⟩
  · exact ⟨LoginPolicy.allowPermitted, rfl⟩
  · exact ⟨LoginPolicy.denyAny, rfl⟩

/-- One scan step on an unrecognized token aborts the whole scan. -/
theorem policyLoop_cons_invalid (t : String) (ts : List String) (pol : LoginPolicy)
    (count : Nat) (h : isPolicyToken t = false) : policyLoop (t :: ts) pol count = none := by
  simp only [isPolicyToken, Bool.or_eq_false_iff, beq_eq_false_iff_ne, ne_eq] at h
  obtain ⟨⟨⟨h1, h2⟩, h3⟩, h4⟩ := h
  simp only [policyLoop, if_neg h1, if_neg h2, if_neg h3, if_neg h4]

/-- The token scan rejects exactly the token lists containing an
    unrecognized token; on an all-recognized list it returns the policy of
    the last token and adds the list length to the running count. -/
theorem policyLoop_spec (toks : List String) :
    ∀ (pol : LoginPolicy) (count : Nat),
      (toks.all isPolicyToken = false → policyLoop toks pol count = none) ∧
      (toks.all isPolicyToken = true →
        ∃ finalPol, policyLoop toks pol count = some (finalPol, count + toks.length)) := by
  induction toks with
  | nil =>
    intro pol count
    exact ⟨fun h => by simp at h, fun _ => ⟨pol, by simp [policyLoop]⟩⟩
  | cons t ts ih =>
    intro pol count
    constructor
    · intro h
      cases ht : isPolicyToken t with
      | false => exact policyLoop_cons_invalid t ts pol count ht
      | true =>
        obtain ⟨pol2, hstep⟩ := policyLoop_cons_valid t ts pol count ht
        rw [hstep]
        refine (ih pol2 (count + 1)).1 ?_
        simpa [List.all_cons, ht] using h
    · intro h
      have hsplit : isPolicyToken t = true ∧ ts.all isPolicyToken = true := by
        simpa only [List.all_cons, Bool.and_eq_true] using h
      obtain ⟨pol2, hstep⟩ := policyLoop_cons_valid t ts pol count hsplit.1
      obtain ⟨fp, hfp⟩ := (ih pol2 (count + 1)).2 hsplit.2
      refine ⟨fp, ?_⟩
      rw [hstep, hfp, List.length_cons]
      exact congrArg (fun n => some (fp, n)) (by omega)

/-- C4 amended: splitting keeps empty tokens between adjacent separators
    (and yields no token at all for the empty string), so any unrecognized
    token (including the empty token a ", " produces) is rejected during the
    scan with the invalid-or-unknown wording; a list of two or more
    recognized tokens (such as "any,deny") is rejected with the
    conflicting-flags wording; at most one recognized token proceeds to
    lock acquisition (Busy when the lock is held, otherwise the lock is
    taken and the operation is dispatched) — in particular the empty policy
    string, whose token list is empty, proceeds and dispatches with the
    not-set policy (the permit/withdraw path). -/
theorem c4_login_policy_tokens (klass : KerberosClass) (p : String) (env : Env) :
    ((g_strsplit_set p [',', ' ', '\t']).all isPolicyToken = false →
      handle_change_login_policy klass p env =
        [Event.replyErr (GError.dbus DBusErrorCode.invalidArgs
          "Invalid or unknown login_policy argument")]) ∧
    ((g_strsplit_set p [',', ' ', '\t']).all isPolicyToken = true →
      1 < (g_strsplit_set p [',', ' ', '\t']).length →
      handle_change_login_policy klass p env =
        [Event.replyErr (GError.dbus DBusErrorCode.invalidArgs
          "Conflicting flags in login_policy argument")]) ∧
    ((g_strsplit_set p [',', ' ', '\t']).all isPolicyToken = true →
      (g_strsplit_set p [',', ' ', '\t']).length ≤ 1 →
      env.lockFree = false →
      handle_change_login_policy klass p env =
        [Event.replyErr (GError.realm RealmErrorCode.busy "Already running another action")]) ∧
    ((g_strsplit_set p [',', ' ', '\t']).all isPolicyToken = true →
      (g_strsplit_set p [',', ' ', '\t']).length ≤ 1 →
      env.lockFree = true →
      hasLock (handle_change_login_policy klass p env) = true ∧
      (klass.logins_async = true →
        ∃ pol, Event.dispatchLogins pol ∈ handle_change_login_policy klass p env)) ∧
    (env.lockFree = true → klass.logins_async = true →
      handle_change_login_policy klass "" env =
        Event.lockAcquire :: Event.dispatchLogins LoginPolicy.notSet ::
          on_logins_complete klass env.loginsOk env.loginsError) := by
  refine ⟨?_, ?_, ?_, ?_, ?_⟩
  · intro h
    have hl := (policyLoop_spec (g_strsplit_set p [',', ' ', '\t'])
      LoginPolicy.notSet 0).1 h
    simp [handle_change_login_policy, hl]
  · intro h hlen
    obtain ⟨fp, hfp⟩ := (policyLoop_spec (g_strsplit_set p [',', ' ', '\t'])
      LoginPolicy.notSet 0).2 h
    simp only [handle_change_login_policy, hfp]
    rw [if_pos (by omega)]
  · intro h hlen hfree
    obtain ⟨fp, hfp⟩ := (policyLoop_spec (g_strsplit_set p [',', ' ', '\t'])
      LoginPolicy.notSet 0).2 h
    simp only [handle_change_login_policy, hfp]
    rw [if_neg (by omega), hfree]
    rfl
  · intro h hlen hfree
    obtain ⟨fp, hfp⟩ := (policyLoop_spec (g_strsplit_set p [',', ' ', '\t'])
      LoginPolicy.notSet 0).2 h
    simp only [handle_change_login_policy, hfp]
    rw [if_neg (by omega), hfree]
    constructor
    · rfl
    · intro ha
      rw [ha]
      exact ⟨fp, by simp⟩
  · intro hfree hloa
    obtain ⟨lockFree, cancelled, installMode, backendResult, fs, fe, lok, lerr⟩ := env
    obtain ⟨lasync, lfinish⟩ := klass
    change lockFree = true at hfree
    subst hfree
    change lasync = true at hloa
    subst hloa
    rfl

/-- Witness for c4_login_policy_tokens: the single recognized token
    "permitted" reaches lock acquisition and dispatch, and the empty policy
    string dispatches with the not-set policy. -/
theorem c4_login_policy_tokens_witness :
    (hasLock (handle_change_login_policy classFixture "permitted" envFixture) = true ∧
     ∃ pol, Event.dispatchLogins pol ∈
       handle_change_login_policy classFixture "permitted" envFixture) ∧
    handle_change_login_policy classFixture "" envFixture =
      Event.lockAcquire :: Event.dispatchLogins LoginPolicy.notSet ::
        on_logins_complete classFixture true none := by
  have h := (c4_login_policy_tokens classFixture "permitted" envFixture).2.2.2.1
    (by decide) (by decide) rfl
  have h0 := (c4_login_policy_tokens classFixture "" envFixture).2.2.2.2 rfl rfl
  exact ⟨⟨h.1, h.2 rfl⟩, h0⟩

/-- Prepending a non-unlock event does not change the unlock count. -/
theorem countUnlock_cons (x : Event) (tr : List Event) (hx : x ≠ Event.unlock) :
    countUnlock (x :: tr) = countUnlock tr := by
  cases x <;> first | rfl | exact absurd rfl hx

/-- Prepending a non-lock event does not change the lock flag. -/
theorem hasLock_cons (x : Event) (tr : List Event) (hx : x ≠ Event.lockAcquire) :
    hasLock (x :: tr) = hasLock tr := by
  cases x <;> first | rfl | exact absurd rfl hx

/-- enroll_method_reply always ends with the reply followed by the unlock. -/
theorem enroll_method_reply_ends (err : Option GError) :
    endsWithReplyUnlock (enroll_method_reply err) := by
  cases err with
  | none =>
    exact ⟨[Event.diagInfo "Successfully enrolled machine in realm"], Event.replyOk,
      rfl, rfl, rfl, rfl⟩
  | some e =>
    cases e with
    | realm c m =>
      exact ⟨[Event.diagError (some (GError.realm c m)) none],
        Event.replyErr (GError.realm c m), rfl, rfl, rfl, rfl⟩
    | dbus c m =>
      exact ⟨[Event.diagError (some (GError.dbus c m)) none],
        Event.replyErr (GError.dbus c m), rfl, rfl, rfl, rfl⟩
    | ioCancelled =>
      exact ⟨[Event.diagError (some GError.ioCancelled) (some "Cancelled")],
        Event.replyErr (GError.realm RealmErrorCode.cancelled "Operation was cancelled."),
        rfl, rfl, rfl, rfl⟩
    | krb5 c m =>
      exact ⟨[Event.diagError (some (GError.krb5 c m))
          (some "Failed to enroll machine in realm")],
        Event.replyErr (GError.realm RealmErrorCode.failed
          "Failed to enroll machine in realm. See diagnostics."), rfl, rfl, rfl, rfl⟩
    | fileError m =>
      exact ⟨[Event.diagError (some (GError.fileError m))
          (some "Failed to enroll machine in realm")],
        Event.replyErr (GError.realm RealmErrorCode.failed
          "Failed to enroll machine in realm. See diagnostics."), rfl, rfl, rfl, rfl⟩
    | otherError m =>
      exact ⟨[Event.diagError (some (GError.otherError m))
          (some "Failed to enroll machine in realm")],
        Event.replyErr (GError.realm RealmErrorCode.failed
          "Failed to enroll machine in realm. See diagnostics."), rfl, rfl, rfl, rfl⟩

/-- unenroll_method_reply always ends with the reply followed by the unlock. -/
theorem unenroll_method_reply_ends (err : Option GError) :
    endsWithReplyUnlock (unenroll_method_reply err) := by
  cases err with
  | none =>
    exact ⟨[Event.diagInfo "Successfully unenrolled machine from realm"], Event.replyOk,
      rfl, rfl, rfl, rfl⟩
  | some e =>
    cases e with
    | realm c m =>
      exact ⟨[Event.diagError (some (GError.realm c m)) none],
        Event.replyErr (GError.realm c m), rfl, rfl, rfl, rfl⟩
    | dbus c m =>
      exact ⟨[Event.diagError (some (GError.dbus c m)) none],
        Event.replyErr (GError.dbus c m), rfl, rfl, rfl, rfl⟩
    | ioCancelled =>
      exact ⟨[Event.diagError (some GError.ioCancelled) (some "Cancelled")],
        Event.replyErr (GError.realm RealmErrorCode.cancelled "Operation was cancelled."),
        rfl, rfl, rfl, rfl⟩
    | krb5 c m =>
      exact ⟨[Event.diagError (some (GError.krb5 c m))
          (some "Failed to unenroll machine from realm")],
        Event.replyErr (GError.realm RealmErrorCode.failed
          "Failed to unenroll machine from domain. See diagnostics."), rfl, rfl, rfl, rfl⟩
    | fileError m =>
      exact ⟨[Event.diagError (some (GError.fileError m))
          (some "Failed to unenroll machine from realm")],
        Event.replyErr (GError.realm RealmErrorCode.failed
          "Failed to unenroll machine from domain. See diagnostics."), rfl, rfl, rfl, rfl⟩
    | otherError m =>
      exact ⟨[Event.diagError (some (GError.otherError m))
          (some "Failed to unenroll machine from realm")],
        Event.replyErr (GError.realm RealmErrorCode.failed
          "Failed to unenroll machine from domain. See diagnostics."), rfl, rfl, rfl, rfl⟩

/-- Extending a completion trace with a benign event keeps its shape. -/
theorem endsWithReplyUnlock_cons (x : Event) (tr : List Event)
    (hx1 : x ≠ Event.unlock) (hx2 : x ≠ Event.lockAcquire)
    (h : endsWithReplyUnlock tr) : endsWithReplyUnlock (x :: tr) := by
  obtain ⟨pre, e, heq, hrep, hcount, hlock⟩ := h
  refine ⟨x :: pre, e, by rw [heq]; rfl, hrep, ?_, ?_⟩
  · rw [countUnlock_cons x tr hx1, hcount]
  · rw [hasLock_cons x tr hx2, hlock]

/-- on_name_caches_flush always ends with the success reply and the unlock. -/
theorem on_name_caches_flush_ends (fs : Int) (fe : Option GError) :
    endsWithReplyUnlock (on_name_caches_flush fs fe) := by
  unfold on_name_caches_flush
  by_cases h : fs = 0
  · rw [if_neg (by simp [h])]
    exact enroll_method_reply_ends none
  · rw [if_pos h]
    exact endsWithReplyUnlock_cons _ _ (fun hh => Event.noConfusion hh)
      (fun hh => Event.noConfusion hh) (enroll_method_reply_ends none)

/-- on_enroll_complete always ends with the reply followed by the unlock,
    provided the back-end declares join_finish. -/
theorem on_enroll_complete_ends (iface : MembershipIface) (hjf : iface.join_finish = true)
    (cancelled : Bool) (joinResult : Option GError) (installMode : Bool)
    (fs : Int) (fe : Option GError) :
    endsWithReplyUnlock (on_enroll_complete iface cancelled joinResult installMode fs fe) := by
  obtain ⟨ja, la, jf, lf, jc, lc⟩ := iface
  cases jf with
  | false => exact Bool.noConfusion hjf
  | true =>
    cases cancelled with
    | true => exact enroll_method_reply_ends (some GError.ioCancelled)
    | false =>
      cases joinResult with
      | some e => exact enroll_method_reply_ends (some e)
      | none =>
        cases installMode with
        | true => exact enroll_method_reply_ends none
        | false =>
          exact endsWithReplyUnlock_cons _ _ (fun hh => Event.noConfusion hh)
            (fun hh => Event.noConfusion hh) (on_name_caches_flush_ends fs fe)

/-- on_unenroll_complete always ends with the reply followed by the unlock,
    provided the back-end declares leave_finish. -/
theorem on_unenroll_complete_ends (iface : MembershipIface) (hlf : iface.leave_finish = true)
    (cancelled : Bool) (leaveResult : Option GError) :
    endsWithReplyUnlock (on_unenroll_complete iface cancelled leaveResult) := by
  obtain ⟨ja, la, jf, lf, jc, lc⟩ := iface
  cases lf with
  | false => exact Bool.noConfusion hlf
  | true =>
    cases cancelled with
    | true => exact unenroll_method_reply_ends (some GError.ioCancelled)
    | false => exact unenroll_method_reply_ends leaveResult

/-- on_logins_complete always ends with the reply followed by the unlock,
    provided the class declares logins_finish. -/
theorem on_logins_complete_ends (klass : KerberosClass) (hlof : klass.logins_finish = true)
    (ok : Bool) (err : Option GError) :
    endsWithReplyUnlock (on_logins_complete klass ok err) := by
  obtain ⟨la, lf⟩ := klass
  cases lf with
  | false => exact Bool.noConfusion hlof
  | true =>
    cases ok with
    | true =>
      exact ⟨[Event.diagInfo "Successfully changed permitted logins for realm"],
        Event.replyOk, rfl, rfl, rfl, rfl⟩
    | false =>
      cases err with
      | none =>
        exact ⟨[Event.diagError none (some "Failed to change permitted logins")],
          Event.replyErr (GError.realm RealmErrorCode.internalErr
            "Failed to change permitted logins. See diagnostics."), rfl, rfl, rfl, rfl⟩
      | some e =>
        cases e with
        | realm c m =>
          exact ⟨[Event.diagError (some (GError.realm c m)) none],
            Event.replyErr (GError.realm c m), rfl, rfl, rfl, rfl⟩
        | dbus c m =>
          exact ⟨[Event.diagError (some (GError.dbus c m)) none],
            Event.replyErr (GError.dbus c m), rfl, rfl, rfl, rfl⟩
        | ioCancelled =>
          exact ⟨[Event.diagError (some GError.ioCancelled)
              (some "Failed to change permitted logins")],
            Event.replyErr (GError.realm RealmErrorCode.internalErr
              "Failed to change permitted logins. See diagnostics."), rfl, rfl, rfl, rfl⟩
        | krb5 c m =>
          exact ⟨[Event.diagError (some (GError.krb5 c m))
              (some "Failed to change permitted logins")],
            Event.replyErr (GError.realm RealmErrorCode.internalErr
              "Failed to change permitted logins. See diagnostics."), rfl, rfl, rfl, rfl⟩
        | fileError m =>
          exact ⟨[Event.diagError (some (GError.fileError m))
              (some "Failed to change permitted logins")],
            Event.replyErr (GError.realm RealmErrorCode.internalErr
              "Failed to change permitted logins. See diagnostics."), rfl, rfl, rfl, rfl⟩
        | otherError m =>
          exact ⟨[Event.diagError (some (GError.otherError m))
              (some "Failed to change permitted logins")],
            Event.replyErr (GError.realm RealmErrorCode.internalErr
              "Failed to change permitted logins. See diagnostics."), rfl, rfl, rfl, rfl⟩

/-- A trace that is a bare error reply satisfies the lock discipline. -/
theorem lockBalanced_of_reply (e : GError) : lockBalanced [Event.replyErr e] := by
  exact ⟨rfl, fun h => Bool.noConfusion h⟩

/-- A lock acquisition followed by a completion trace satisfies the lock
    discipline. -/
theorem lockBalanced_lock_cons (rest : List Event) (h : endsWithReplyUnlock rest) :
    lockBalanced (Event.lockAcquire :: rest) := by
  obtain ⟨pre, e, heq, hrep, hcount, hlock⟩ := h
  constructor
  · rw [countUnlock_cons _ _ (fun hh => Event.noConfusion hh), hcount]
    rfl
  · intro _
    exact ⟨Event.lockAcquire :: pre, e, by rw [heq]; rfl, hrep⟩

/-- join_or_leave satisfies the lock discipline with a well-formed back-end. -/
theorem join_or_leave_lockBalanced (iface : MembershipIface) (cred : CredWire) (ap j : Bool)
    (env : Env) (hjf : iface.join_finish = true) (hlf : iface.leave_finish = true) :
    lockBalanced (join_or_leave iface cred ap j env) := by
  unfold join_or_leave
  by_cases hcap : ((j && !iface.join_async) || (!j && !iface.leave_async)) = true
  · rw [if_pos hcap]
    exact lockBalanced_of_reply _
  · rw [if_neg hcap]
    cases hp : realm_credential_parse cred with
    | error e => exact lockBalanced_of_reply e
    | ok c =>
      dsimp only
      cases hs : is_credential_supported iface c.type j with
      | some e => exact lockBalanced_of_reply e
      | none =>
        dsimp only
        cases hfree : env.lockFree with
        | false =>
          rw [if_pos (show (!false) = true from rfl)]
          exact lockBalanced_of_reply _
        | true =>
          rw [if_neg (show ¬((!true) = true) from fun hh => Bool.noConfusion hh)]
          cases j with
          | true =>
            rw [if_pos rfl, if_pos hjf]
            exact lockBalanced_lock_cons _
              (endsWithReplyUnlock_cons (Event.dispatchJoin ap) _
                (fun hh => Event.noConfusion hh) (fun hh => Event.noConfusion hh)
                (on_enroll_complete_ends iface hjf env.cancelled env.backendResult
                  env.installMode env.flushStatus env.flushError))
          | false =>
            rw [if_neg (show ¬(false = true) from fun hh => Bool.noConfusion hh),
              if_pos hlf]
            exact lockBalanced_lock_cons _
              (endsWithReplyUnlock_cons Event.dispatchLeave _
                (fun hh => Event.noConfusion hh) (fun hh => Event.noConfusion hh)
                (on_unenroll_complete_ends iface hlf env.cancelled env.backendResult))

/-- C2: every exit path of Join, Leave, Deconfigure and ChangeLoginPolicy
    releases the exclusive lock exactly as often as it acquired it, and a
    path that acquired the lock ends with the reply immediately followed by
    the unlock (provided the back-end declares its finish and async entry
    points, without which the g_return_if_fail guards abort before any
    reply). -/
theorem c2_lock_released (iface : MembershipIface) (klass : KerberosClass)
    (hostname : Option String) (cred : CredWire) (opts : Options) (policy : String)
    (env : Env) (hjf : iface.join_finish = true) (hlf : iface.leave_finish = true)
    (hlof : klass.logins_finish = true) (hloa : klass.logins_async = true) :
    lockBalanced (handle_join iface hostname cred opts env) ∧
    lockBalanced (handle_leave iface cred opts env) ∧
    lockBalanced (handle_deconfigure iface opts env) ∧
    lockBalanced (handle_change_login_policy klass policy env) := by
  refine ⟨?_, ?_, ?_, ?_⟩
  · unfold handle_join
    by_cases hb : hostnameBad hostname = true
    · rw [if_pos hb]
      exact lockBalanced_of_reply _
    · rw [if_neg hb]
      exact join_or_leave_lockBalanced iface cred opts.assumePackages true env hjf hlf
  · unfold handle_leave
    cases hou : opts.computerOu with
    | some ou => exact lockBalanced_of_reply _
    | none => exact join_or_leave_lockBalanced iface cred false false env hjf hlf
  · exact join_or_leave_lockBalanced iface deconfigureCredential false false env hjf hlf
  · unfold handle_change_login_policy
    cases hpl : policyLoop (g_strsplit_set policy [',', ' ', '\t']) LoginPolicy.notSet 0 with
    | none => exact lockBalanced_of_reply _
    | some pc =>
      obtain ⟨pol, cnt⟩ := pc
      dsimp only
      by_cases hcnt : 1 < cnt
      · rw [if_pos hcnt]
        exact lockBalanced_of_reply _
      · rw [if_neg hcnt]
        cases hfree : env.lockFree with
        | false =>
          rw [if_pos (show (!false) = true from rfl)]
          exact lockBalanced_of_reply _
        | true =>
          rw [if_neg (show ¬((!true) = true) from fun hh => Bool.noConfusion hh)]
          rw [if_pos hloa]
          exact lockBalanced_lock_cons _
            (endsWithReplyUnlock_cons (Event.dispatchLogins pol) _
              (fun hh => Event.noConfusion hh) (fun hh => Event.noConfusion hh)
              (on_logins_complete_ends klass hlof env.loginsOk env.loginsError))

/-- Witness for c2_lock_released at a fully capable back-end and a quiet
    environment. -/
theorem c2_lock_released_witness :
    lockBalanced (handle_join ifaceFixture (some "myhost.example.com") credWireFixture
      optionsFixture envFixture) ∧
    lockBalanced (handle_leave ifaceFixture credWireFixture optionsFixture envFixture) ∧
    lockBalanced (handle_deconfigure ifaceFixture optionsFixture envFixture) ∧
    lockBalanced (handle_change_login_policy classFixture "permitted" envFixture) :=
  c2_lock_released ifaceFixture classFixture (some "myhost.example.com") credWireFixture
    optionsFixture "permitted" envFixture rfl rfl rfl rfl

/-- C3: handle_join checks host name sanity first (a bad host name yields
    the host-name-not-set-correctly failure regardless of every other
    input), then join capability, then credential parsing, then credential
    support, and attempts the lock last: the lock is taken exactly when
    checks (a)-(d) pass and the lock is free, and lock failure is the Busy
    reply. -/
theorem c3_join_precondition_order (iface : MembershipIface) (hostname : Option String)
    (cred : CredWire) (opts : Options) (env : Env) :
    (hostnameBad hostname = true →
      handle_join iface hostname cred opts env =
        [Event.replyErr (GError.realm RealmErrorCode.failed
          "This computer\x27s host name is not set correctly.")]) ∧
    (hostnameBad hostname = false → iface.join_async = false →
      handle_join iface hostname cred opts env =
        [Event.replyErr (GError.dbus DBusErrorCode.notSupported
          "Joining this realm is not supported")]) ∧
    (∀ e, hostnameBad hostname = false → iface.join_async = true →
      realm_credential_parse cred = Except.error e →
      handle_join iface hostname cred opts env = [Event.replyErr e]) ∧
    (∀ c e, hostnameBad hostname = false → iface.join_async = true →
      realm_credential_parse cred = Except.ok c →
      is_credential_supported iface c.type true = some e →
      handle_join iface hostname cred opts env = [Event.replyErr e]) ∧
    (∀ c, hostnameBad hostname = false → iface.join_async = true →
      realm_credential_parse cred = Except.ok c →
      is_credential_supported iface c.type true = none →
      env.lockFree = false →
      handle_join iface hostname cred opts env =
        [Event.replyErr (GError.realm RealmErrorCode.busy
          "Already running another action")]) ∧
    (hasLock (handle_join iface hostname cred opts env) = true ↔
      (hostnameBad hostname = false ∧ iface.join_async = true ∧
       (∃ c, realm_credential_parse cred = Except.ok c ∧
         is_credential_supported iface c.type true = none) ∧
       env.lockFree = true)) := by
  refine ⟨?_, ?_, ?_, ?_, ?_, ?_⟩
  · intro h
    simp [handle_join, h]
  · intro hb hja
    simp [handle_join, hb, join_or_leave, hja]
  · intro e hb hja hp
    simp [handle_join, hb, join_or_leave, hja, hp]
  · intro c e hb hja hp hs
    simp [handle_join, hb, join_or_leave, hja, hp, hs]
  · intro c hb hja hp hs hfree
    simp [handle_join, hb, join_or_leave, hja, hp, hs, hfree]
  · constructor
    · intro h
      cases hb : hostnameBad hostname with
      | true => simp [handle_join, hb, hasLock] at h
      | false =>
        cases hja : iface.join_async with
        | false => simp [handle_join, hb, join_or_leave, hja, hasLock] at h
        | true =>
          cases hp : realm_credential_parse cred with
          | error e => simp [handle_join, hb, join_or_leave, hja, hp, hasLock] at h
          | ok c =>
            cases hs : is_credential_supported iface c.type true with
            | some e =>
              simp [handle_join, hb, join_or_leave, hja, hp, hs, hasLock] at h
            | none =>
              cases hfree : env.lockFree with
              | false =>
                simp [handle_join, hb, join_or_leave, hja, hp, hs, hfree, hasLock] at h
              | true => exact ⟨rfl, rfl, ⟨c, rfl, hs⟩, rfl⟩
    · rintro ⟨hb, hja, ⟨c, hp, hs⟩, hfree⟩
      simp [handle_join, hb, join_or_leave, hja, hp, hs, hfree, hasLock]

/-- Witness for c3_join_precondition_order: the host name localhost fails
    first, before any other check. -/
theorem c3_join_precondition_order_witness :
    handle_join ifaceFixture (some "localhost") credWireFixture optionsFixture envFixture =
      [Event.replyErr (GError.realm RealmErrorCode.failed
        "This computer\x27s host name is not set correctly.")] :=
  (c3_join_precondition_order ifaceFixture (some "localhost") credWireFixture
    optionsFixture envFixture).1 (by decide)

/-- C5: when the cancellation token has fired at back-end completion, the
    caller receives the Cancelled outcome regardless of the back-end finish
    result (the finish function is not consulted), for both join and leave. -/
theorem c5_cancelled_wins (iface : MembershipIface) (r r2 : Option GError)
    (im im2 : Bool) (fs fs2 : Int) (fe fe2 : Option GError)
    (hjf : iface.join_finish = true) (hlf : iface.leave_finish = true) :
    on_enroll_complete iface true r im fs fe = on_enroll_complete iface true r2 im2 fs2 fe2 ∧
    on_enroll_complete iface true r im fs fe =
      [Event.diagError (some GError.ioCancelled) (some "Cancelled"),
       Event.replyErr (GError.realm RealmErrorCode.cancelled "Operation was cancelled."),
       Event.unlock] ∧
    on_unenroll_complete iface true r = on_unenroll_complete iface true r2 ∧
    on_unenroll_complete iface true r =
      [Event.diagError (some GError.ioCancelled) (some "Cancelled"),
       Event.replyErr (GError.realm RealmErrorCode.cancelled "Operation was cancelled."),
       Event.unlock] := by
  obtain ⟨ja, la, jf, lf, jc, lc⟩ := iface
  cases jf with
  | false => exact Bool.noConfusion hjf
  | true =>
    cases lf with
    | false => exact Bool.noConfusion hlf
    | true => exact ⟨rfl, rfl, rfl, rfl⟩

/-- Witness for c5_cancelled_wins: a back-end failure is overridden by the
    Cancelled outcome. -/
theorem c5_cancelled_wins_witness :
    on_enroll_complete ifaceFixture true (some (GError.otherError "backend boom"))
      false 0 none =
      [Event.diagError (some GError.ioCancelled) (some "Cancelled"),
       Event.replyErr (GError.realm RealmErrorCode.cancelled "Operation was cancelled."),
       Event.unlock] :=
  (c5_cancelled_wins ifaceFixture (some (GError.otherError "backend boom")) none
    false true 0 1 none (some (GError.otherError "x")) rfl rfl).2.1

/-- C6: after a successful back-end join, outside install mode the
    name-service-cache-flush step runs before the success reply and a
    nonzero flush status is only logged (the reply is still success); in
    install mode the flush step is skipped entirely and the success reply is
    produced directly. -/
theorem c6_flush_post_step (iface : MembershipIface) (hjf : iface.join_finish = true)
    (fs : Int) (fe : Option GError) :
    on_enroll_complete iface false none false fs fe =
      Event.flushCaches ::
        ((if fs ≠ 0 then [Event.diagError fe (some "Flushing name caches failed")]
          else []) ++
         [Event.diagInfo "Successfully enrolled machine in realm", Event.replyOk,
          Event.unlock]) ∧
    Event.replyOk ∈ on_enroll_complete iface false none false fs fe ∧
    on_enroll_complete iface false none true fs fe =
      [Event.diagInfo "Successfully enrolled machine in realm", Event.replyOk,
       Event.unlock] ∧
    Event.flushCaches ∉ on_enroll_complete iface false none true fs fe := by
  obtain ⟨ja, la, jf, lf, jc, lc⟩ := iface
  cases jf with
  | false => exact Bool.noConfusion hjf
  | true =>
    refine ⟨rfl, ?_, rfl, ?_⟩
    · by_cases h : fs = 0
      · simp [on_enroll_complete, on_name_caches_flush, enroll_method_reply, h]
      · simp [on_enroll_complete, on_name_caches_flush, enroll_method_reply, h]
    · intro hmem
      simp [on_enroll_complete, enroll_method_reply] at hmem

/-- Witness for c6_flush_post_step: with a nonzero flush status the join
    still replies success, and in install mode no flush command runs. -/
theorem c6_flush_post_step_witness :
    Event.replyOk ∈ on_enroll_complete ifaceFixture false none false 1 none ∧
    Event.flushCaches ∉ on_enroll_complete ifaceFixture false none true 1 none := by
  have h := c6_flush_post_step ifaceFixture rfl 1 none
  exact ⟨h.2.1, h.2.2.2⟩

/-- C7: handle_leave rejects a computer-ou option with InvalidArgument as
    the whole trace — before parsing the credential or touching the lock,
    for every credential and environment — while handle_deconfigure
    synthesizes the automatic/empty credential wire value (which parses as
    the Automatic credential) and follows exactly the ordinary leave path. -/
theorem c7_leave_ou_deconfigure (iface : MembershipIface) (cred : CredWire)
    (opts : Options) (env : Env) :
    (∀ ou, opts.computerOu = some ou →
      handle_leave iface cred opts env =
        [Event.replyErr (GError.dbus DBusErrorCode.invalidArgs
          "The computer-ou argument is not supported when leaving a domain.")] ∧
      hasLock (handle_leave iface cred opts env) = false) ∧
    (opts.computerOu = none →
      handle_deconfigure iface opts env =
        handle_leave iface deconfigureCredential opts env) ∧
    realm_credential_parse deconfigureCredential = Except.ok Cred.automatic := by
  refine ⟨?_, ?_, rfl⟩
  · intro ou h
    constructor
    · simp [handle_leave, h]
    · simp [handle_leave, h, hasLock]
  · intro h
    simp [handle_deconfigure, handle_leave, h]

/-- Witness for c7_leave_ou_deconfigure at a concrete computer-ou option and
    at empty options. -/
theorem c7_leave_ou_deconfigure_witness :
    handle_leave ifaceFixture credWireFixture
      { computerOu := some "OU=Special Computers", assumePackages := false } envFixture =
      [Event.replyErr (GError.dbus DBusErrorCode.invalidArgs
        "The computer-ou argument is not supported when leaving a domain.")] ∧
    handle_deconfigure ifaceFixture optionsFixture envFixture =
      handle_leave ifaceFixture deconfigureCredential optionsFixture envFixture := by
  refine ⟨((c7_leave_ou_deconfigure ifaceFixture credWireFixture
    { computerOu := some "OU=Special Computers", assumePackages := false }
    envFixture).1 "OU=Special Computers" rfl).1, ?_⟩
  exact (c7_leave_ou_deconfigure ifaceFixture credWireFixture optionsFixture
    envFixture).2.1 rfl

/-- A finish on a failed result returns no path and keeps the closure
    ccache_file unchanged. -/
theorem kinit_finish_failed (s : SimpleAsyncState) (hf : s.failed = true) :
    (realm_kerberos_kinit_ccache_finish s).filename = none ∧
    (realm_kerberos_kinit_ccache_finish s).state.ccache_file = s.ccache_file := by
  obtain ⟨f, pe, cf, pr⟩ := s
  cases f with
  | false => exact Bool.noConfusion hf
  | true =>
    cases pe with
    | none => exact ⟨rfl, rfl⟩
    | some e =>
      by_cases hm : krbAuthMatch e = true
      · simp [realm_kerberos_kinit_ccache_finish, hm]
      · simp [realm_kerberos_kinit_ccache_finish, hm]

/-- After any finish on a failed result, a further finish returns neither a
    path nor an error. -/
theorem kinit_finish_second (s : SimpleAsyncState) (hf : s.failed = true) :
    (realm_kerberos_kinit_ccache_finish
      (realm_kerberos_kinit_ccache_finish s).state).filename = none ∧
    (realm_kerberos_kinit_ccache_finish
      (realm_kerberos_kinit_ccache_finish s).state).errorOut = none := by
  obtain ⟨f, pe, cf, pr⟩ := s
  cases f with
  | false => exact Bool.noConfusion hf
  | true =>
    cases pe with
    | none => exact ⟨rfl, rfl⟩
    | some e =>
      by_cases hm : krbAuthMatch e = true
      · simp [realm_kerberos_kinit_ccache_finish, hm]
      · simp [realm_kerberos_kinit_ccache_finish, hm]

/-- C8 counterexample: a second finish on an already-consumed successful
    kinit result returns no path and stores no error at all through the out
    parameter — in particular it does not signal Internal, contrary to the
    claim that re-consumption is rejected as Internal. -/
theorem c8_counterexample :
    (realm_kerberos_kinit_ccache_finish
      (realm_kerberos_kinit_ccache_finish
        (kinit_ccache_thread_func
          { initContext := none, parseName := none, mkstempOk := true,
            ccResolve := none, getInitCreds := none }
          "admin@EXAMPLE.COM" "/tmp/realmd-krb5-cache.ABC123")).state).errorOut = none ∧
    (realm_kerberos_kinit_ccache_finish
      (realm_kerberos_kinit_ccache_finish
        (kinit_ccache_thread_func
          { initContext := none, parseName := none, mkstempOk := true,
            ccResolve := none, getInitCreds := none }
          "admin@EXAMPLE.COM" "/tmp/realmd-krb5-cache.ABC123")).state).filename = none :=
  ⟨rfl, rfl⟩

/-- C8 amended: a failed ticket acquisition returns no path and leaves the
    cache path in the closure, so closure cleanup deletes the created file;
    a successful acquisition consumed exactly once returns the path and
    clears it from the closure, so the file survives cleanup; consuming the
    same result a second time returns no path and sets no error (the
    re-consumption is not detected and no Internal error is signalled). -/
theorem c8_ccache_lifecycle (w : Krb5World) (p t : String) :
    (w.initContext = none → w.parseName = none → w.mkstempOk = true →
      w.ccResolve = none → w.getInitCreds = none →
      (realm_kerberos_kinit_ccache_finish (kinit_ccache_thread_func w p t)).filename =
        some t ∧
      (realm_kerberos_kinit_ccache_finish (kinit_ccache_thread_func w p t)).errorOut =
        none ∧
      kinit_closure_free
        (realm_kerberos_kinit_ccache_finish (kinit_ccache_thread_func w p t)).state = []) ∧
    (∀ code, w.initContext = none → w.parseName = none → w.mkstempOk = true →
      w.ccResolve = none → w.getInitCreds = some code →
      (realm_kerberos_kinit_ccache_finish (kinit_ccache_thread_func w p t)).filename =
        none ∧
      kinit_closure_free
        (realm_kerberos_kinit_ccache_finish (kinit_ccache_thread_func w p t)).state =
        [t]) ∧
    ((realm_kerberos_kinit_ccache_finish
        (realm_kerberos_kinit_ccache_finish
          (kinit_ccache_thread_func w p t)).state).filename = none ∧
     (realm_kerberos_kinit_ccache_finish
        (realm_kerberos_kinit_ccache_finish
          (kinit_ccache_thread_func w p t)).state).errorOut = none) := by
  obtain ⟨ic, pn, mk, cc, gic⟩ := w
  refine ⟨?_, ?_, ?_⟩
  · intro h1 h2 h3 h4 h5
    subst h1; subst h2; subst h3; subst h4; subst h5
    exact ⟨rfl, rfl, rfl⟩
  · intro code h1 h2 h3 h4 h5
    subst h1; subst h2; subst h3; subst h4; subst h5
    have hff := kinit_finish_failed
      (kinit_ccache_thread_func
        { initContext := none, parseName := none, mkstempOk := true,
          ccResolve := none, getInitCreds := some code } p t) rfl
    refine ⟨hff.1, ?_⟩
    unfold kinit_closure_free
    rw [hff.2]
    rfl
  · cases ic with
    | some code => exact kinit_finish_second _ rfl
    | none =>
      cases pn with
      | some code => exact kinit_finish_second _ rfl
      | none =>
        cases mk with
        | false => exact kinit_finish_second _ rfl
        | true =>
          cases cc with
          | some code => exact kinit_finish_second _ rfl
          | none =>
            cases gic with
            | some code => exact kinit_finish_second _ rfl
            | none => exact ⟨rfl, rfl⟩

/-- Witness for c8_ccache_lifecycle: a successful run hands over the path; a
    run failing in krb5_get_init_creds_password leaves the file for deletion
    by closure cleanup. -/
theorem c8_ccache_lifecycle_witness :
    (realm_kerberos_kinit_ccache_finish
      (kinit_ccache_thread_func
        { initContext := none, parseName := none, mkstempOk := true,
          ccResolve := none, getInitCreds := none }
        "admin@EXAMPLE.COM" "/tmp/realmd-krb5-cache.XYZ789")).filename =
      some "/tmp/realmd-krb5-cache.XYZ789" ∧
    kinit_closure_free
      (realm_kerberos_kinit_ccache_finish
        (kinit_ccache_thread_func
          { initContext := none, parseName := none, mkstempOk := true,
            ccResolve := none, getInitCreds := some KRB5KDC_ERR_PREAUTH_FAILED }
          "admin@EXAMPLE.COM" "/tmp/realmd-krb5-cache.XYZ789")).state =
      ["/tmp/realmd-krb5-cache.XYZ789"] := by
  refine ⟨((c8_ccache_lifecycle
    { initContext := none, parseName := none, mkstempOk := true,
      ccResolve := none, getInitCreds := none }
    "admin@EXAMPLE.COM" "/tmp/realmd-krb5-cache.XYZ789").1 rfl rfl rfl rfl rfl).1, ?_⟩
  exact ((c8_ccache_lifecycle
    { initContext := none, parseName := none, mkstempOk := true,
      ccResolve := none, getInitCreds := some KRB5KDC_ERR_PREAUTH_FAILED }
    "admin@EXAMPLE.COM" "/tmp/realmd-krb5-cache.XYZ789").2.1
    KRB5KDC_ERR_PREAUTH_FAILED rfl rfl rfl rfl rfl).2

/-- C9: a failed ticket acquisition surfaces REALM_ERROR_AUTH_FAILED exactly
    when the propagated error carries one of the six credential-problem
    Kerberos codes; any other failure is propagated unchanged; and in every
    failure case the full error is first sent to the diagnostics sink. -/
theorem c9_auth_failed_mapping (s : SimpleAsyncState) (e : GError)
    (hf : s.failed = true) (he : s.pendingError = some e) :
    (realm_kerberos_kinit_ccache_finish s).errorOut =
      (if krbAuthMatch e then
        some (GError.realm RealmErrorCode.authFailed
          ("Couldn\x27t authenticate as: " ++ s.principal ++ ": " ++ e.message))
       else some e) ∧
    (realm_kerberos_kinit_ccache_finish s).events = [Event.diagError (some e) none] ∧
    (∀ code m, e = GError.krb5 code m →
      (isAuthFailedErr (realm_kerberos_kinit_ccache_finish s).errorOut = true ↔
        code ∈ authFailureCodes)) := by
  by_cases hm : krbAuthMatch e = true
  · refine ⟨?_, ?_, ?_⟩
    · simp [realm_kerberos_kinit_ccache_finish, hf, he, hm]
    · simp [realm_kerberos_kinit_ccache_finish, hf, he, hm]
    · intro code m hcode
      subst hcode
      simp only [realm_kerberos_kinit_ccache_finish, hf, he, hm]
      simp only [krbAuthMatch, decide_eq_true_eq] at hm
      simp [isAuthFailedErr, hm]
  · have hm2 : krbAuthMatch e = false := by
      cases hb : krbAuthMatch e with
      | false => rfl
      | true => exact absurd hb hm
    refine ⟨?_, ?_, ?_⟩
    · simp [realm_kerberos_kinit_ccache_finish, hf, he, hm2]
    · simp [realm_kerberos_kinit_ccache_finish, hf, he, hm2]
    · intro code m hcode
      subst hcode
      simp only [krbAuthMatch, decide_eq_true_eq] at hm
      simp [realm_kerberos_kinit_ccache_finish, hf, he, hm2, isAuthFailedErr, hm]

/-- Witness for c9_auth_failed_mapping: pre-authentication failure maps to
    AuthFailed with the principal and the underlying message. -/
theorem c9_auth_failed_mapping_witness :
    (realm_kerberos_kinit_ccache_finish
      { failed := true,
        pendingError := some (GError.krb5 KRB5KDC_ERR_PREAUTH_FAILED
          "Preauthentication failed"),
        ccache_file := some "/tmp/realmd-krb5-cache.W1TN3SS",
        principal := "admin@EXAMPLE.COM" }).errorOut =
      some (GError.realm RealmErrorCode.authFailed
        "Couldn\x27t authenticate as: admin@EXAMPLE.COM: Preauthentication failed") := by
  have h := (c9_auth_failed_mapping
    { failed := true,
      pendingError := some (GError.krb5 KRB5KDC_ERR_PREAUTH_FAILED
        "Preauthentication failed"),
      ccache_file := some "/tmp/realmd-krb5-cache.W1TN3SS",
      principal := "admin@EXAMPLE.COM" }
    (GError.krb5 KRB5KDC_ERR_PREAUTH_FAILED "Preauthentication failed") rfl rfl).1
  rw [h]
  decide

end Realmd
